import Mathlib

/-!
Verification development for the `anchor` repository: a shallow embedding of
its four Python validation scripts
(`validate_idempotency.py`, `check_darwin_guards.py`, `validate_models.py`,
`validate_structure.py`) together with theorems settling the spec claims.

The embedding models parsed YAML values as the inductive `Val` (null, bool,
int, str, list, dict with string keys in insertion order — all keys occurring
in this repository are strings, and Python dicts preserve insertion order).
Regex matching is embedded by per-pattern matcher functions faithful to
Python `re.search` semantics on ASCII text: `re.IGNORECASE` with the
all-lowercase ASCII patterns used here is modelled by lowercasing the text,
and `$` without `re.MULTILINE` matches only at the end of the text or just
before a trailing final newline.  Diagnostics are modelled structurally
(constructor per message shape, carrying the interpolated data) rather than
as the formatted strings the scripts print.
-/

/-- A parsed YAML value, as produced by `yaml.safe_load` for the inputs this
repository handles (floats do not occur in any consulted field). -/
inductive Val where
  | null
  | bool (b : Bool)
  | int (n : Int)
  | str (s : String)
  | list (xs : List Val)
  | dict (ps : List (String × Val))

/-- First-match association lookup, modelling Python `dict` access on a dict
represented as its (duplicate-free) insertion-ordered pair list. -/
def assocLookup (k : String) : List (String × Val) → Option Val
  | [] => none
  | (k2, v) :: rest => if k2 = k then some v else assocLookup k rest

/-- Python `key in task` on a dict. -/
def hasKey (k : String) (ps : List (String × Val)) : Bool :=
  (assocLookup k ps).isSome

/-- Python truthiness test `not data` (negated): falsy values. -/
def pyFalsy : Val → Bool
  | .null => true
  | .bool b => !b
  | .int n => n = 0
  | .str s => s = ""
  | .list xs => xs.isEmpty
  | .dict ps => ps.isEmpty

/-- Python `type(x).__name__` for the modelled values. -/
def pyTypeName : Val → String
  | .null => "NoneType"
  | .bool _ => "bool"
  | .int _ => "int"
  | .str _ => "str"
  | .list _ => "list"
  | .dict _ => "dict"

/-- Python `\s` on ASCII text: space, tab, newline, vertical tab, form feed,
carriage return. -/
def isPySpace (c : Char) : Bool :=
  c = ' ' || c = '\t' || c = '\n' || c = Char.ofNat 11 || c = Char.ofNat 12 || c = '\r'

/-- ASCII lowercasing of one character, modelling `str.lower` /
`re.IGNORECASE` for the ASCII patterns and inputs in scope. -/
def lowerChar (c : Char) : Char :=
  if 'A' ≤ c ∧ c ≤ 'Z' then Char.ofNat (c.toNat + 32) else c

/-- Lowercase a character list. -/
def pyLowerL (cs : List Char) : List Char :=
  cs.map lowerChar

/-- Drop a literal from the front of the text: `some rest` when `lit` is a
prefix, `none` otherwise. -/
def dropLit : List Char → List Char → Option (List Char)
  | [], cs => some cs
  | _ :: _, [] => none
  | p :: ps, c :: cs => if p = c then dropLit ps cs else none

/-- Substring search (Python `lit in text` / `re.search` on a literal
pattern, on already-lowercased text). -/
def hasSub (pat : List Char) : List Char → Bool
  | [] => (dropLit pat []).isSome
  | c :: cs => (dropLit pat (c :: cs)).isSome || hasSub pat cs

/-- `"preflight" in file_path.name.lower()`. -/
def containsPreflight (fileName : String) : Bool :=
  hasSub "preflight".data (pyLowerL fileName.data)

/-! ## `validate_idempotency.py` -/

/-- A structured rendering of the diagnostic strings `validate_idempotency.py`
produces: each constructor carries the file name, the task's `name` value as
found (`none` when absent, in which case the script prints `task #idx`), the
task index, and for the unguarded message the reported module type. -/
inductive Diag where
  | unguarded (file : String) (name : Option Val) (idx : Nat) (moduleType : String)
  | rawNoGuard (file : String) (name : Option Val) (idx : Nat)
  | changedWhenTrue (file : String) (name : Option Val) (idx : Nat)
  | parseFailed (file : String)

/-- `"shell" in task or "ansible.builtin.shell" in task`. -/
def usesShell (ps : List (String × Val)) : Bool :=
  hasKey "shell" ps || hasKey "ansible.builtin.shell" ps

/-- `"command" in task or "ansible.builtin.command" in task`. -/
def usesCommand (ps : List (String × Val)) : Bool :=
  hasKey "command" ps || hasKey "ansible.builtin.command" ps

/-- `"raw" in task or "ansible.builtin.raw" in task`. -/
def usesRaw (ps : List (String × Val)) : Bool :=
  hasKey "raw" ps || hasKey "ansible.builtin.raw" ps

/-- The module key whose arguments are consulted:
`module_key = "shell" if uses_shell else "command"`, then prefixed with
`ansible.builtin.` when the bare spelling is absent from the task. -/
def moduleKeyOf (ps : List (String × Val)) : String :=
  let k := if usesShell ps then "shell" else "command"
  if hasKey k ps then k else "ansible.builtin." ++ k

/-- `isinstance(v, dict) and key in v`. -/
def mappingHas (key : String) : Val → Bool
  | .dict m => hasKey key m
  | _ => false

/-- The `has_creates` computation of `check_task_idempotency`: only for
shell/command tasks, looking in the consulted module key's mapping value and
in the task-level `args` mapping. -/
def hasCreates (ps : List (String × Val)) : Bool :=
  if usesShell ps || usesCommand ps then
    mappingHas "creates" ((assocLookup (moduleKeyOf ps) ps).getD (.dict []))
      || mappingHas "creates" ((assocLookup "args" ps).getD (.dict []))
  else false

/-- The `has_removes` computation, same places as `hasCreates`. -/
def hasRemoves (ps : List (String × Val)) : Bool :=
  if usesShell ps || usesCommand ps then
    mappingHas "removes" ((assocLookup (moduleKeyOf ps) ps).getD (.dict []))
      || mappingHas "removes" ((assocLookup "args" ps).getD (.dict []))
  else false

/-- `task.get("name")`; the printed fallback `task #idx` is reconstructed
from the carried index at rendering time. -/
def taskNameVal (ps : List (String × Val)) : Option Val :=
  assocLookup "name" ps

/-- `check_task_idempotency(task, file_path, task_idx)` for a task given as
its dict pairs (the callers only pass dicts). -/
def check_task_idempotency (ps : List (String × Val)) (fileName : String)
    (taskIdx : Nat) : List Diag :=
  if !(usesShell ps || usesCommand ps || usesRaw ps) then []
  else if usesRaw ps then
    -- raw tasks: preflight-named files are exempt; otherwise flag when
    -- `changed_when` is absent; return without the later rules
    if containsPreflight fileName then []
    else if hasKey "changed_when" ps then []
    else [.rawNoGuard fileName (taskNameVal ps) taskIdx]
  else
    (if !(hasKey "changed_when" ps || hasCreates ps || hasRemoves ps) then
      [.unguarded fileName (taskNameVal ps) taskIdx
        (if usesShell ps then "shell" else "command")]
    else [])
    ++ (match assocLookup "changed_when" ps with
        | some (Val.bool true) =>
          [.changedWhenTrue fileName (taskNameVal ps) taskIdx]
        | _ => [])

/-- Python iteration `for x in v`: a list yields its elements, a string its
one-character strings, a dict its keys; null/bool/int are not iterable and
`enumerate` raises an uncaught `TypeError`, modelled as `none`. -/
def pyIterate : Val → Option (List Val)
  | .list xs => some xs
  | .str s => some (s.data.map fun c => .str (String.singleton c))
  | .dict ps => some (ps.map fun p => .str p.1)
  | _ => none

/-- The items `enumerate(play.get(key, []))` runs over for a
`pre_tasks`/`tasks`/`post_tasks` section: the default `[]` applies only when
the key is absent; a present non-iterable value (e.g. `tasks:` left null)
makes the script raise. -/
def sectionItems (ps : List (String × Val)) (key : String) : Option (List Val) :=
  pyIterate ((assocLookup key ps).getD (.list []))

/-- `for idx, task in enumerate(items): if isinstance(task, dict): check…`. -/
def checkSection (fileName : String) (items : List Val) : List Diag :=
  items.enum.flatMap fun it =>
    match it.2 with
    | .dict ps => check_task_idempotency ps fileName it.1
    | _ => []

/-- One play's diagnostics from its three sections, in source order;
`none` propagates the `TypeError` from a non-iterable section value. -/
def playDiags (fileName : String) (ps : List (String × Val)) : Option (List Diag) :=
  match sectionItems ps "pre_tasks" with
  | none => none
  | some pre =>
    match sectionItems ps "tasks" with
    | none => none
    | some ts =>
      match sectionItems ps "post_tasks" with
      | none => none
      | some post =>
        some (checkSection fileName pre ++ checkSection fileName ts
          ++ checkSection fileName post)

/-- The play loop: non-dict entries are skipped; a raising play aborts the
whole run (diagnostics of earlier plays are lost with it). -/
def playsDiags (fileName : String) : List Val → Option (List Diag)
  | [] => some []
  | .dict ps :: rest =>
    match playDiags fileName ps with
    | none => none
    | some ds =>
      match playsDiags fileName rest with
      | none => none
      | some rs => some (ds ++ rs)
  | _ :: rest => playsDiags fileName rest

/-- `check_yaml_file` on already-parsed data; `none` models the uncaught
`TypeError` on a non-iterable section value.  NOTE (faithful to the source):
the source's second branch `elif isinstance(data, list)` repeats the first
branch's condition and is therefore unreachable — a non-list document falls
through with no diagnostics, and a list document is always treated as a list
of plays, so the commented "task file format" handling never runs. -/
def check_yaml_file (fileName : String) (data : Val) : Option (List Diag) :=
  if pyFalsy data then some []
  else
    match data with
    | .list plays => playsDiags fileName plays
    | _ => some []

/-! ## `check_darwin_guards.py` -/

/-- The single quote character, written numerically. -/
def squote : Char := Char.ofNat 39

/-- After the matched suffix literal: the regex tail to be matched to the end
of the text by an optional quote character, then whitespace, then an
unanchored-by-MULTILINE end anchor.  Since a final newline is itself
whitespace, this holds exactly when (after the optional quote) only
whitespace remains. -/
def afterSuffixOk : List Char → Bool
  | [] => true
  | c :: r =>
    if c = '"' || c = squote then r.all isPySpace
    else isPySpace c && r.all isPySpace

/-- Does the suffix-anchored pattern (literal, optional quote, whitespace,
end anchor) match starting exactly here? -/
def checkSuffixHere (pat : List Char) (l : List Char) : Bool :=
  match dropLit pat l with
  | some rest => afterSuffixOk rest
  | none => false

/-- `re.search` for a pattern of shape `lit["\']?\s*$` (no MULTILINE): try
the anchored match at every position. -/
def searchSuffixPat (pat : List Char) : List Char → Bool
  | [] => false
  | c :: cs => checkSuffixHere pat (c :: cs) || searchSuffixPat pat cs

/-- `re.search` for `lit\s+` (the pattern ends right after the whitespace,
so one whitespace character after the literal suffices). -/
def searchLitThenSpace (lit : List Char) : List Char → Bool
  | [] => false
  | c :: cs =>
    (match dropLit lit (c :: cs) with
     | some (d :: _) => isPySpace d
     | _ => false)
    || searchLitThenSpace lit cs

/-- Skip a maximal nonempty run of whitespace (`\s+` before a pattern part
starting with a non-whitespace character). -/
def dropSpaces1 : List Char → Option (List Char)
  | [] => none
  | c :: cs =>
    if isPySpace c then some (cs.dropWhile isPySpace) else none

/-- `re.search` for `litA\s+litB` where `litB` starts with a non-whitespace
character (so backtracking inside `\s+` cannot help). -/
def searchLitSpacesLit (litA litB : List Char) : List Char → Bool
  | [] => false
  | c :: cs =>
    (match dropLit litA (c :: cs) with
     | some rest =>
       match dropSpaces1 rest with
       | some rest2 => (dropLit litB rest2).isSome
       | none => false
     | none => false)
    || searchLitSpacesLit litA litB cs

/-- Within a `.`-gap (no newline), find the literal `==` and return the text
after it; fail at a newline or the end.  Taking the first occurrence loses
no matches: any later successful `==` lies on the same line, so the earlier
one also admits the remaining pattern. -/
def gapEqEq : List Char → Option (List Char)
  | [] => none
  | '=' :: '=' :: ds => some ds
  | c :: cs => if c = '\n' then none else gapEqEq cs

/-- Within a `.`-gap (no newline), find `["\']target["\']`. -/
def gapQuoted (target : List Char) : List Char → Bool
  | [] => false
  | c :: cs =>
    ((c = '"' || c = squote)
      && (match dropLit target cs with
          | some (q :: _) => q = '"' || q = squote
          | _ => false))
    || (!(c = '\n') && gapQuoted target cs)

/-- `re.search` for a guard pattern `lit.*==.*["\']target["\']` on lowercased
text (the guard patterns carry no other regex constructs). -/
def guardMatch (lit target : List Char) : List Char → Bool
  | [] => false
  | c :: cs =>
    (match dropLit lit (c :: cs) with
     | some rest =>
       match gapEqEq rest with
       | some rest2 => gapQuoted target rest2
       | none => false
     | none => false)
    || guardMatch lit target cs

/-- `MACOS_INDICATORS`: the pattern source strings paired with their matcher
on lowercased text. -/
def MACOS_INDICATORS : List (String × (List Char → Bool)) :=
  [ ("homebrew", hasSub "homebrew".data),
    ("brew\\s+", searchLitThenSpace "brew".data),
    ("launchd", hasSub "launchd".data),
    ("xcode-select", hasSub "xcode-select".data),
    ("softwareupdate", hasSub "softwareupdate".data),
    ("\\.app[\"\u0027]?\\s*$", searchSuffixPat ".app".data),
    ("\\.dmg[\"\u0027]?\\s*$", searchSuffixPat ".dmg".data),
    ("\\.pkg[\"\u0027]?\\s*$", searchSuffixPat ".pkg".data),
    ("/Applications/", hasSub "/applications/".data),
    ("com\\.apple\\.", hasSub "com.apple.".data),
    ("defaults\\s+write", searchLitSpacesLit "defaults".data "write".data),
    ("darwin", hasSub "darwin".data) ]

/-- `DARWIN_GUARDS`: pattern source strings with their matcher on lowercased
text. -/
def DARWIN_GUARDS : List (String × (List Char → Bool)) :=
  [ ("ansible_system.*==.*[\"\u0027]Darwin[\"\u0027]",
      guardMatch "ansible_system".data "darwin".data),
    ("ansible_os_family.*==.*[\"\u0027]Darwin[\"\u0027]",
      guardMatch "ansible_os_family".data "darwin".data),
    ("ansible_distribution.*==.*[\"\u0027]MacOSX[\"\u0027]",
      guardMatch "ansible_distribution".data "macosx".data) ]

/-- The `macos_indicators_found` list: pattern source strings of the
indicators matching the file content, in table order. -/
def macosIndicatorsFound (content : String) : List String :=
  (MACOS_INDICATORS.filter fun e => e.2 (pyLowerL content.data)).map fun e => e.1

/-- The `has_guards` test: any Darwin guard pattern matches anywhere. -/
def hasDarwinGuards (content : String) : Bool :=
  DARWIN_GUARDS.any fun e => e.2 (pyLowerL content.data)

/-- The structured diagnostics of `check_darwin_guards.py`. -/
inductive GuardDiag where
  | unguardedMacos (file : String) (indicators : List String)
  | readFailed (file : String)

/-- `check_file_for_guards` on the file's base name and its raw text. -/
def check_file_for_guards (fileName content : String) : List GuardDiag :=
  let has_guards := hasDarwinGuards content
  let found := macosIndicatorsFound content
  if !found.isEmpty && !has_guards then
    if !containsPreflight fileName then
      [.unguardedMacos fileName (found.take 3)]
    else []
  else []

/-! ## `validate_models.py` -/

/-- A structured rendering of the error strings `validate_model_structure`
produces. -/
inductive ModelError where
  | mustBeList (typeName : String)
  | notDict (idx : Nat) (typeName : String)
  | missingName (idx : Nat)
  | nameNotString (idx : Nat)
  | nameEmpty (idx : Nat)
  | duplicate (name : String)
  | badState (name : String) (state : Val)

/-- `not name.strip()`: the string strips to empty, i.e. every character is
whitespace. -/
def pyStripIsEmpty (s : String) : Bool :=
  s.data.all isPySpace

/-- `seen_names.add(name)` on the seen-set modelled as a duplicate-free
list. -/
def insertSeen (n : String) (seen : List String) : List String :=
  if seen.contains n then seen else n :: seen

/-- The `state` check: absent is fine; otherwise the value must equal the
string `present` or `absent`. -/
def modelStateErrs (name : String) (ps : List (String × Val)) : List ModelError :=
  match assocLookup "state" ps with
  | none => []
  | some (Val.str s) =>
    if s = "present" || s = "absent" then [] else [.badState name (Val.str s)]
  | some st => [.badState name st]

/-- One loop iteration of `validate_model_structure` over one entry: the
errors it appends and the updated seen-set. -/
def checkModel (idx : Nat) (seen : List String) :
    Val → List ModelError × List String
  | .dict ps =>
    match assocLookup "name" ps with
    | none => ([.missingName idx], seen)
    | some (Val.str name) =>
      if pyStripIsEmpty name then ([.nameEmpty idx], seen)
      else
        ((if seen.contains name then [.duplicate name] else [])
          ++ modelStateErrs name ps,
         insertSeen name seen)
    | some _ => ([.nameNotString idx], seen)
  | v => ([.notDict idx (pyTypeName v)], seen)

/-- The entry loop of `validate_model_structure`. -/
def modelsLoop : Nat → List String → List Val → List ModelError
  | _, _, [] => []
  | idx, seen, m :: rest =>
    let r := checkModel idx seen m
    r.1 ++ modelsLoop (idx + 1) r.2 rest

/-- `validate_model_structure(models)`.  (The source's early return for an
empty list coincides with the loop on `[]`.) -/
def validate_model_structure : Val → List ModelError
  | .list ms => modelsLoop 0 [] ms
  | v => [.mustBeList (pyTypeName v)]

/-- The state of `inventory/group_vars/all.yml` as `main` of
`validate_models.py` sees it. -/
inductive VarsFile where
  | missing
  | parseError
  | parsed (v : Val)

/-- The exit code of `validate_models.py`'s `main` given the vars file
state; `none` models the uncaught `AttributeError` when the parsed document
is truthy but not a mapping (no `.get`). -/
def models_main_exit : VarsFile → Option Nat
  | .missing => some 1
  | .parseError => some 1
  | .parsed v =>
    if pyFalsy v then some 1
    else
      match v with
      | .dict ps =>
        let models := (assocLookup "ollama_models" ps).getD (.list [])
        some (if (validate_model_structure models).isEmpty then 0 else 1)
      | _ => none

/-! ## `validate_structure.py` -/

/-- The file-system facts about one role directory that
`validate_structure.py` consults. -/
structure RoleDir where
  name : String
  hasTasksMain : Bool
  hasDefaultsDir : Bool
  hasDefaultsMain : Bool
  hasVarsDir : Bool
  hasVarsMain : Bool
  hasHandlersDir : Bool
  hasHandlersMain : Bool
  hasMetaDir : Bool
  hasMetaMain : Bool
  hasTasksDir : Bool
  tasksYmlCount : Nat
  tasksYamlCount : Nat

/-- The structured errors of `validate_structure.py`. -/
inductive StructErr where
  | rolesDirMissing
  | noRoles
  | missingTasksMain (role : String)
  | dirMissingMain (role : String) (dirName : String)
  | mixedExtensions (role : String)

/-- Per-role errors of `validate_role_structure`, in the source's check
order (tasks/main.yml, then defaults, vars, handlers, meta). -/
def roleStructErrs (r : RoleDir) : List StructErr :=
  (if !r.hasTasksMain then [.missingTasksMain r.name] else [])
    ++ (if r.hasDefaultsDir && !r.hasDefaultsMain then
          [.dirMissingMain r.name "defaults"] else [])
    ++ (if r.hasVarsDir && !r.hasVarsMain then
          [.dirMissingMain r.name "vars"] else [])
    ++ (if r.hasHandlersDir && !r.hasHandlersMain then
          [.dirMissingMain r.name "handlers"] else [])
    ++ (if r.hasMetaDir && !r.hasMetaMain then
          [.dirMissingMain r.name "meta"] else [])

/-- `validate_role_structure(roles_dir)`; `none` models a missing roles
directory. -/
def validate_role_structure : Option (List RoleDir) → List StructErr
  | none => [.rolesDirMissing]
  | some [] => [.noRoles]
  | some rs => rs.flatMap roleStructErrs

/-- `validate_task_files(roles_dir)` (the unclear-name loop appends
nothing). -/
def validate_task_files (rs : List RoleDir) : List StructErr :=
  rs.flatMap fun r =>
    if !r.hasTasksDir then []
    else if decide (0 < r.tasksYmlCount) && decide (0 < r.tasksYamlCount) then
      [.mixedExtensions r.name]
    else []

/-- The exit code of `validate_structure.py`'s `main`; `none` models the
uncaught exception `validate_task_files` raises when the roles directory is
missing (`iterdir` on a nonexistent path). -/
def structure_main_exit : Option (List RoleDir) → Option Nat
  | none => none
  | some rs =>
    let all_errors := validate_role_structure (some rs) ++ validate_task_files rs
    some (if all_errors.isEmpty then 0 else 1)

/-! ## The warning-style entry points -/

/-- One input file for `validate_idempotency.py`'s `main`: its base name and
either a parse failure or the parsed document. -/
inductive IdemFile where
  | parseError
  | parsed (v : Val)

/-- `check_yaml_file` including its parse-failure handling (a parse failure
is caught and reported as one diagnostic; it never raises). -/
def checkYamlInput (fileName : String) : IdemFile → Option (List Diag)
  | .parseError => some [.parseFailed fileName]
  | .parsed v => check_yaml_file fileName v

/-- The accumulated `all_issues` of `validate_idempotency.py`'s `main`; a
raising file aborts the whole run. -/
def idempotencyAllIssues : List (String × IdemFile) → Option (List Diag)
  | [] => some []
  | f :: rest =>
    match checkYamlInput f.1 f.2 with
    | none => none
    | some ds =>
      match idempotencyAllIssues rest with
      | none => none
      | some rs => some (ds ++ rs)

/-- The exit code of `validate_idempotency.py`'s `main`: the source returns
0 from both report branches (findings are advisory); `none` models the
uncaught `TypeError` from a non-iterable section value, on which the
interpreter aborts with exit code 1 instead. -/
def idempotency_main_exit (files : List (String × IdemFile)) : Option Nat :=
  match idempotencyAllIssues files with
  | none => none
  | some issues => some (if !issues.isEmpty then 0 else 0)

/-- One input file for `check_darwin_guards.py`'s `main`: its base name and
either a read failure or the raw text. -/
inductive DarwinFile where
  | readError
  | content (s : String)

/-- `check_file_for_guards` including its read-failure handling. -/
def checkDarwinInput (fileName : String) : DarwinFile → List GuardDiag
  | .readError => [.readFailed fileName]
  | .content s => check_file_for_guards fileName s

/-- The accumulated `all_issues` of `check_darwin_guards.py`'s `main`. -/
def darwinAllIssues (files : List (String × DarwinFile)) : List GuardDiag :=
  files.flatMap fun f => checkDarwinInput f.1 f.2

/-- The exit code of `check_darwin_guards.py`'s `main`: 0 from both report
branches. -/
def darwin_main_exit (files : List (String × DarwinFile)) : Nat :=
  if !(darwinAllIssues files).isEmpty then 0 else 0

/-! ## Helper lemmas -/

/-- Classifier for the unguarded-task diagnostic. -/
def isUnguardedDiag : Diag → Bool
  | .unguarded _ _ _ _ => true
  | _ => false

theorem shellOrCommand_of_hasCreates {ps : List (String × Val)}
    (h : hasCreates ps = true) : (usesShell ps || usesCommand ps) = true := by
  unfold hasCreates at h
  by_cases hc : (usesShell ps || usesCommand ps) = true
  · exact hc
  · rw [if_neg hc] at h
    exact absurd h (by simp)

/-! ## Claim theorems -/

/-- C1: in a task-file-form document (a list of task mappings), the spec and
the script's own comment say the tasks are extracted directly and checked;
the code's second branch `elif isinstance(data, list)` repeats the first
branch's condition and never runs, so such a file yields no diagnostics even
though checking the task directly yields the unguarded-shell diagnostic. -/
theorem C1_taskfile_form_ignored :
    check_yaml_file "tasks.yml"
        (.list [.dict [("name", .str "t"), ("shell", .str "echo hi")]]) = some []
      ∧ check_task_idempotency [("name", .str "t"), ("shell", .str "echo hi")]
          "tasks.yml" 0
        = [.unguarded "tasks.yml" (some (.str "t")) 0 "shell"] :=
  ⟨rfl, rfl⟩

/-- C3 counterexample: a task carrying both a `shell` key (bare string) and a
`command` key whose own argument mapping contains `creates` still gets the
unguarded-task diagnostic, because only the `shell` key's value is consulted
for `creates`/`removes`. -/
theorem C3_counterexample :
    mappingHas "creates"
        ((assocLookup "command"
            [("shell", Val.str "x"),
             ("command", Val.dict [("creates", Val.str "/f")])]).getD
          (Val.dict [])) = true
      ∧ usesCommand
          [("shell", Val.str "x"),
           ("command", Val.dict [("creates", Val.str "/f")])] = true
      ∧ check_task_idempotency
          [("shell", Val.str "x"),
           ("command", Val.dict [("creates", Val.str "/f")])] "main.yml" 0
        = [.unguarded "main.yml" none 0 "shell"] :=
  ⟨rfl, rfl, rfl⟩

/-- C3 amended: for every task where the evaluator's `has_creates`
computation finds `creates` — in the consulted module key's mapping (`shell`
preferred over `command`, bare spelling preferred over `ansible.builtin.`)
or in the task-level `args` mapping — no unguarded-task diagnostic is
emitted. -/
theorem C3_creates_suppresses_unguarded (ps : List (String × Val))
    (fileName : String) (taskIdx : Nat) (h : hasCreates ps = true) :
    ∀ d ∈ check_task_idempotency ps fileName taskIdx, isUnguardedDiag d = false := by
  intro d hd
  have hmod := shellOrCommand_of_hasCreates h
  unfold check_task_idempotency at hd
  rw [hmod] at hd
  simp only [Bool.true_or, Bool.not_true, Bool.false_eq_true, if_false] at hd
  by_cases hraw : usesRaw ps = true
  · rw [if_pos hraw] at hd
    split at hd
    · exact absurd hd (List.not_mem_nil d)
    · split at hd
      · exact absurd hd (List.not_mem_nil d)
      · rw [List.mem_singleton] at hd
        subst hd
        rfl
  · rw [if_neg hraw] at hd
    rw [show (hasKey "changed_when" ps || hasCreates ps || hasRemoves ps) = true by
          rw [h]; simp] at hd
    simp only [Bool.not_true, Bool.false_eq_true, if_false, List.nil_append] at hd
    split at hd
    · rw [List.mem_singleton] at hd
      subst hd
      rfl
    · exact absurd hd (List.not_mem_nil d)

/-- C3 amended, witness at a concrete task. -/
theorem C3_creates_suppresses_unguarded_witness :
    hasCreates [("shell", Val.dict [("creates", Val.str "/tmp/f")])] = true
      ∧ ∀ d ∈ check_task_idempotency
            [("shell", Val.dict [("creates", Val.str "/tmp/f")])] "main.yml" 0,
          isUnguardedDiag d = false :=
  ⟨rfl, C3_creates_suppresses_unguarded _ "main.yml" 0 rfl⟩

/-- C4 counterexample: a `raw` task with `changed_when: true` (boolean) in a
non-preflight file produces no diagnostics at all — in particular not the
"disables idempotency" one the claim requires for every task with that
field value. -/
theorem C4_counterexample :
    assocLookup "changed_when"
        [("raw", Val.str "x"), ("changed_when", Val.bool true)]
      = some (Val.bool true)
      ∧ check_task_idempotency
          [("raw", Val.str "x"), ("changed_when", Val.bool true)] "main.yml" 0
        = [] :=
  ⟨rfl, rfl⟩

/-- C4 amended: for every shell/command (non-raw) task, `changed_when` being
the literal boolean `true` yields exactly the one disables-idempotency
diagnostic, independent of other guard fields, while a string value (even a
truthy one such as `"true"`) yields no diagnostic at all. -/
theorem C4_changed_when_true_disables (ps : List (String × Val))
    (fileName : String) (taskIdx : Nat) (hraw : usesRaw ps = false)
    (hmod : (usesShell ps || usesCommand ps) = true) :
    (assocLookup "changed_when" ps = some (Val.bool true) →
      check_task_idempotency ps fileName taskIdx
        = [.changedWhenTrue fileName (taskNameVal ps) taskIdx])
      ∧ (∀ s, assocLookup "changed_when" ps = some (Val.str s) →
          check_task_idempotency ps fileName taskIdx = []) := by
  constructor
  · intro hcw
    have hk : hasKey "changed_when" ps = true := by
      unfold hasKey
      rw [hcw]
      rfl
    unfold check_task_idempotency
    rw [hmod, hraw, hk, hcw]
    simp
  · intro s hcw
    have hk : hasKey "changed_when" ps = true := by
      unfold hasKey
      rw [hcw]
      rfl
    unfold check_task_idempotency
    rw [hmod, hraw, hk, hcw]
    simp

/-- C4 amended, witness at concrete tasks (boolean `true` and string
`"true"`). -/
theorem C4_changed_when_true_disables_witness :
    check_task_idempotency
        [("shell", Val.str "x"), ("changed_when", Val.bool true)] "main.yml" 0
      = [.changedWhenTrue "main.yml" none 0]
      ∧ check_task_idempotency
          [("shell", Val.str "x"), ("changed_when", Val.str "true")] "main.yml" 0
        = [] :=
  ⟨(C4_changed_when_true_disables
      [("shell", Val.str "x"), ("changed_when", Val.bool true)]
      "main.yml" 0 rfl rfl).1 rfl,
   (C4_changed_when_true_disables
      [("shell", Val.str "x"), ("changed_when", Val.str "true")]
      "main.yml" 0 rfl rfl).2 "true" rfl⟩

/-- C5: raw tasks are handled first and exclusively — in a preflight-named
file they produce nothing regardless of guard fields; elsewhere they produce
exactly the one raw-usage diagnostic precisely when `changed_when` is
absent, and never any Rule 2/3 diagnostic. -/
theorem C5_raw_handling (ps : List (String × Val)) (fileName : String)
    (taskIdx : Nat) (hraw : usesRaw ps = true) :
    check_task_idempotency ps fileName taskIdx
      = if containsPreflight fileName then []
        else if hasKey "changed_when" ps then []
        else [.rawNoGuard fileName (taskNameVal ps) taskIdx] := by
  unfold check_task_idempotency
  rw [hraw]
  simp

/-- C5, witness at a concrete raw task in a preflight file and in a plain
file. -/
theorem C5_raw_handling_witness :
    check_task_idempotency [("raw", Val.str "x")] "preflight.yml" 0 = []
      ∧ check_task_idempotency [("raw", Val.str "x")] "main.yml" 0
        = [.rawNoGuard "main.yml" none 0] :=
  ⟨(C5_raw_handling [("raw", Val.str "x")] "preflight.yml" 0 rfl).trans (by rfl),
   (C5_raw_handling [("raw", Val.str "x")] "main.yml" 0 rfl).trans (by rfl)⟩

/-- C7 counterexample: a play whose `tasks` key holds null makes
`enumerate(None)` raise an uncaught `TypeError`, so the idempotency entry
point aborts (the interpreter exits 1) instead of returning 0 — refuting
"for every input ... exit code 0" at this input. -/
theorem C7_counterexample :
    idempotency_main_exit
        [("main.yml", IdemFile.parsed (.list [.dict [("tasks", Val.null)]]))]
      = none
      ∧ sectionItems [("tasks", Val.null)] "tasks" = none :=
  ⟨rfl, rfl⟩

/-- C7 amended: whenever the idempotency entry point runs to completion
(every consulted section value iterable), it returns 0, diagnostics or not;
the Darwin-guard entry point returns 0 for every input; the model and
structure validators exit 1 exactly when the error list they accumulate from
a readable input is non-empty. -/
theorem C7_exit_codes :
    (∀ files issues, idempotencyAllIssues files = some issues →
        idempotency_main_exit files = some 0)
      ∧ (∀ files, darwin_main_exit files = 0)
      ∧ (∀ ps : List (String × Val), ps ≠ [] →
          models_main_exit (.parsed (.dict ps))
            = some (if (validate_model_structure
                  ((assocLookup "ollama_models" ps).getD (.list []))).isEmpty
                then 0 else 1))
      ∧ (∀ rs : List RoleDir,
          structure_main_exit (some rs)
            = some (if (validate_role_structure (some rs)
                  ++ validate_task_files rs).isEmpty then 0 else 1)) := by
  refine ⟨fun files issues h => ?_, fun files => ?_, fun ps hne => ?_, fun rs => rfl⟩
  · unfold idempotency_main_exit
    rw [h]
    simp
  · simp [darwin_main_exit]
  · have h0 : ps.isEmpty = false := List.isEmpty_eq_false.mpr hne
    simp [models_main_exit, pyFalsy, h0]

/-- C7, witness: diagnostics present still exit 0 for the advisory checks; a
valid vars mapping exits 0; an empty roles directory exits 1. -/
theorem C7_exit_codes_witness :
    idempotency_main_exit [("a.yml", IdemFile.parseError)] = some 0
      ∧ darwin_main_exit [("a.yml", DarwinFile.readError)] = 0
      ∧ models_main_exit (.parsed (.dict [("x", Val.int 3)])) = some 0
      ∧ structure_main_exit (some []) = some 1 :=
  ⟨C7_exit_codes.1 _ [Diag.parseFailed "a.yml"] rfl, C7_exit_codes.2.1 _,
   (C7_exit_codes.2.2.1 _ (List.cons_ne_nil _ _)).trans (by rfl),
   (C7_exit_codes.2.2.2 _).trans (by rfl)⟩

/-- C8: two otherwise-valid model entries sharing a `name` yield exactly the
one duplicate-name error, raised while processing the second entry (each
entry alone validates cleanly). -/
theorem C8_duplicate_name (ps1 ps2 : List (String × Val)) (n : String)
    (h1 : assocLookup "name" ps1 = some (Val.str n))
    (h2 : assocLookup "name" ps2 = some (Val.str n))
    (v1 : validate_model_structure (.list [.dict ps1]) = [])
    (v2 : validate_model_structure (.list [.dict ps2]) = []) :
    validate_model_structure (.list [.dict ps1, .dict ps2]) = [.duplicate n] := by
  have e1 : (checkModel 0 [] (Val.dict ps1)).1 = [] := by
    simpa [validate_model_structure, modelsLoop] using v1
  have e2 : (checkModel 0 [] (Val.dict ps2)).1 = [] := by
    simpa [validate_model_structure, modelsLoop] using v2
  by_cases hstrip : pyStripIsEmpty n = true
  · simp [checkModel, h1, hstrip] at e1
  · simp only [checkModel, h1, hstrip, Bool.false_eq_true, if_false,
      List.contains_nil, List.nil_append] at e1
    simp only [checkModel, h2, hstrip, Bool.false_eq_true, if_false,
      List.contains_nil, List.nil_append] at e2
    simp [validate_model_structure, modelsLoop, checkModel, h1, h2, hstrip,
      insertSeen, e1, e2]

/-- C8, witness at the spec's example name. -/
theorem C8_duplicate_name_witness :
    validate_model_structure (.list [.dict [("name", Val.str "llama3:8b")]]) = []
      ∧ validate_model_structure
          (.list [.dict [("name", Val.str "llama3:8b")],
                  .dict [("name", Val.str "llama3:8b")]])
        = [.duplicate "llama3:8b"] :=
  ⟨rfl, C8_duplicate_name _ _ "llama3:8b" rfl rfl rfl rfl⟩

/-- C9: a whitespace-only `name` string — non-empty as a string — is
rejected with the name-cannot-be-empty error and the entry is skipped before
the duplicate-name and state checks (no other error, seen-set unchanged),
whatever the rest of the entry and the seen-set hold. -/
theorem C9_whitespace_name (idx : Nat) (seen : List String)
    (ps : List (String × Val)) (s : String)
    (h : assocLookup "name" ps = some (Val.str s)) (_hne : s ≠ "")
    (hsp : pyStripIsEmpty s = true) :
    checkModel idx seen (.dict ps) = ([.nameEmpty idx], seen) := by
  simp [checkModel, h, hsp]

/-- C9, witness: a blank name with an invalid `state` and the name already
seen still yields only the empty-name error and leaves the seen-set as it
was. -/
theorem C9_whitespace_name_witness :
    (" " ≠ "" ∧ pyStripIsEmpty " " = true)
      ∧ checkModel 3 [" "]
          (.dict [("name", Val.str " "), ("state", Val.str "maybe")])
        = ([.nameEmpty 3], [" "]) :=
  ⟨⟨by decide, rfl⟩,
   C9_whitespace_name 3 [" "] _ " " rfl (by decide) rfl⟩

/-- C10: a completely absent `ollama_models` key defaults to the empty list
and the validator exits 0; a present key with a null or other non-list value
produces the must-be-a-list error and exit code 1. -/
theorem C10_models_key_handling :
    (∀ ps : List (String × Val), ps ≠ [] →
        assocLookup "ollama_models" ps = none →
        models_main_exit (.parsed (.dict ps)) = some 0)
      ∧ (∀ (ps : List (String × Val)) (v : Val),
          assocLookup "ollama_models" ps = some v → (∀ l, v ≠ Val.list l) →
          validate_model_structure v = [.mustBeList (pyTypeName v)]
            ∧ models_main_exit (.parsed (.dict ps)) = some 1) := by
  constructor
  · intro ps hne hnone
    have h0 : ps.isEmpty = false := List.isEmpty_eq_false.mpr hne
    simp [models_main_exit, pyFalsy, h0, hnone, validate_model_structure,
      modelsLoop]
  · intro ps v hv hnl
    have hne : ps ≠ [] := by
      intro h
      subst h
      simp [assocLookup] at hv
    have h0 : ps.isEmpty = false := List.isEmpty_eq_false.mpr hne
    have hval : validate_model_structure v = [.mustBeList (pyTypeName v)] := by
      cases v with
      | list l => exact absurd rfl (hnl l)
      | null => rfl
      | bool b => rfl
      | int m => rfl
      | str s => rfl
      | dict ps2 => rfl
    exact ⟨hval, by simp [models_main_exit, pyFalsy, h0, hv, hval]⟩

/-- C10, witness: absent key with a nonempty mapping exits 0; a null-valued
key yields the NoneType must-be-a-list error and exit 1. -/
theorem C10_models_key_handling_witness :
    models_main_exit (.parsed (.dict [("x", Val.int 3), ("y", Val.str "a")]))
      = some 0
      ∧ validate_model_structure Val.null = [.mustBeList "NoneType"]
      ∧ models_main_exit (.parsed (.dict [("ollama_models", Val.null)]))
        = some 1 :=
  ⟨C10_models_key_handling.1 _ (List.cons_ne_nil _ _) rfl,
   (C10_models_key_handling.2 [("ollama_models", Val.null)] Val.null rfl
      (fun _ h => Val.noConfusion h)).1,
   (C10_models_key_handling.2 [("ollama_models", Val.null)] Val.null rfl
      (fun _ h => Val.noConfusion h)).2⟩

/-! ## Lemmas about the suffix-anchored indicator patterns -/

theorem lowerChar_of_space {c : Char} (h : isPySpace c = true) :
    lowerChar c = c := by
  have h2 : ((((c = ' ' ∨ c = '\t') ∨ c = '\n') ∨ c = Char.ofNat 11)
      ∨ c = Char.ofNat 12) ∨ c = '\r' := by
    simpa [isPySpace, Bool.or_eq_true, decide_eq_true_eq] using h
  rcases h2 with ((((h2 | h2) | h2) | h2) | h2) | h2 <;> subst h2 <;> decide

theorem pyLowerL_of_allSpace {l : List Char} (h : l.all isPySpace = true) :
    pyLowerL l = l := by
  induction l with
  | nil => rfl
  | cons c cs ih =>
    rw [List.all_cons, Bool.and_eq_true] at h
    simp only [pyLowerL, List.map_cons, List.cons.injEq] at ih ⊢
    exact ⟨lowerChar_of_space h.1, ih h.2⟩

theorem space_not_quote {c : Char} (h : isPySpace c = true) :
    (c = '"' || c = squote) = false := by
  have h2 : ((((c = ' ' ∨ c = '\t') ∨ c = '\n') ∨ c = Char.ofNat 11)
      ∨ c = Char.ofNat 12) ∨ c = '\r' := by
    simpa [isPySpace, Bool.or_eq_true, decide_eq_true_eq] using h
  rcases h2 with ((((h2 | h2) | h2) | h2) | h2) | h2 <;> subst h2 <;> decide

theorem afterSuffixOk_of_allSpace {l : List Char}
    (h : l.all isPySpace = true) : afterSuffixOk l = true := by
  cases l with
  | nil => rfl
  | cons c cs =>
    rw [List.all_cons, Bool.and_eq_true] at h
    simp [afterSuffixOk, space_not_quote h.1, h.1, h.2]

theorem dropLit_append (p l : List Char) : dropLit p (p ++ l) = some l := by
  induction p with
  | nil => rfl
  | cons a ps ih => simp [dropLit, ih]

theorem checkSuffixHere_concat (pat rest : List Char)
    (h : afterSuffixOk rest = true) : checkSuffixHere pat (pat ++ rest) = true := by
  unfold checkSuffixHere
  rw [dropLit_append]
  exact h

theorem searchSuffixPat_here (pat rest : List Char) (hne : pat ≠ [])
    (h : afterSuffixOk rest = true) :
    searchSuffixPat pat (pat ++ rest) = true := by
  have hch := checkSuffixHere_concat pat rest h
  cases pat with
  | nil => exact absurd rfl hne
  | cons p ps =>
    rw [List.cons_append] at hch ⊢
    simp [searchSuffixPat, hch]

theorem searchSuffixPat_append (pat xs ys : List Char)
    (h : searchSuffixPat pat ys = true) :
    searchSuffixPat pat (xs ++ ys) = true := by
  induction xs with
  | nil => simpa using h
  | cons c cs ih =>
    rw [List.cons_append]
    simp [searchSuffixPat, ih]

theorem searchApp_concat (a q w : String)
    (hq : q = "" ∨ q = "\"" ∨ q = "\u0027")
    (hw : w.data.all isPySpace = true) :
    searchSuffixPat ".app".data (pyLowerL ((a ++ ".app" ++ q ++ w).data)) = true := by
  rw [String.data_append, String.data_append, String.data_append]
  simp only [pyLowerL, List.map_append]
  have happ : List.map lowerChar ".app".data = ".app".data := by decide
  have hwl : List.map lowerChar w.data = w.data := by
    simpa [pyLowerL] using pyLowerL_of_allSpace hw
  rw [happ, hwl]
  have hqw : afterSuffixOk (List.map lowerChar q.data ++ w.data) = true := by
    rcases hq with h | h | h <;> subst h
    · simpa using afterSuffixOk_of_allSpace hw
    · have hd : List.map lowerChar ("\"" : String).data = ['"'] := by decide
      rw [hd]
      simp [afterSuffixOk, hw]
    · have hd : List.map lowerChar ("\u0027" : String).data = [squote] := by decide
      have hc : (squote = '"' || squote = squote) = true := by decide
      rw [hd]
      simp [afterSuffixOk, hc, hw]
  simp only [List.append_assoc]
  exact searchSuffixPat_append _ _ _
    (searchSuffixPat_here _ _ (by decide) hqw)

/-- C2 counterexample: `.app` at the end of an interior line (text
`"x.app\ny"`) is not recorded by the indicator scan — the `$` anchor without
MULTILINE only matches at the end of the whole text — so no macOS indicator
is found although a listed suffix indicator ends a line. -/
theorem C2_counterexample : macosIndicatorsFound "x.app\ny" = [] := by decide

/-- C2 amended: a `.app` suffix occurrence (optionally followed by a quote
character, as the pattern allows) is recorded by the indicator scan when
only whitespace follows it through the end of the file text — `$` without
MULTILINE anchors at the end of the text, with `\s*` free to span trailing
newlines.  (The `.dmg`/`.pkg` patterns are identical in shape.) -/
theorem C2_suffix_anchor (a q w : String)
    (hq : q = "" ∨ q = "\"" ∨ q = "\u0027")
    (hw : w.data.all isPySpace = true) :
    "\\.app[\"\u0027]?\\s*$" ∈ macosIndicatorsFound (a ++ ".app" ++ q ++ w) := by
  unfold macosIndicatorsFound
  apply List.mem_map.mpr
  refine ⟨("\\.app[\"\u0027]?\\s*$", searchSuffixPat ".app".data), ?_, rfl⟩
  apply List.mem_filter.mpr
  exact ⟨by simp [MACOS_INDICATORS], searchApp_concat a q w hq hw⟩

/-- C2 amended, witness: quoted `.app` followed by trailing blank lines. -/
theorem C2_suffix_anchor_witness :
    "\\.app[\"\u0027]?\\s*$"
      ∈ macosIndicatorsFound ("get Foo" ++ ".app" ++ "\"" ++ "  \n\n") :=
  C2_suffix_anchor "get Foo" "\"" "  \n\n" (Or.inr (Or.inl rfl)) (by decide)

/-- C6: a file matching at least one macOS indicator, no Darwin guard, and
not preflight-named yields exactly one diagnostic listing the first at most
three matched indicator patterns; any guard match anywhere, or a preflight
name, yields none. -/
theorem C6_darwin_guard_rule (fileName content : String) :
    (macosIndicatorsFound content ≠ [] → hasDarwinGuards content = false →
      containsPreflight fileName = false →
      check_file_for_guards fileName content
        = [.unguardedMacos fileName ((macosIndicatorsFound content).take 3)])
      ∧ (hasDarwinGuards content = true →
          check_file_for_guards fileName content = [])
      ∧ (containsPreflight fileName = true →
          check_file_for_guards fileName content = []) := by
  refine ⟨fun h1 h2 h3 => ?_, fun hg => ?_, fun hp => ?_⟩
  · have h0 : (macosIndicatorsFound content).isEmpty = false :=
      List.isEmpty_eq_false.mpr h1
    simp [check_file_for_guards, h0, h2, h3]
  · simp [check_file_for_guards, hg]
  · simp [check_file_for_guards, hp]

/-- C6, witness: an indicator-bearing unguarded file is flagged with its
matched pattern; the same content in a preflight-named file is not. -/
theorem C6_darwin_guard_rule_witness :
    check_file_for_guards "main.yml" "homebrew"
      = [.unguardedMacos "main.yml" ["homebrew"]]
      ∧ check_file_for_guards "preflight.yml" "homebrew" = [] :=
  ⟨((C6_darwin_guard_rule "main.yml" "homebrew").1 (by decide) (by decide)
      (by decide)).trans (by rfl),
   (C6_darwin_guard_rule "preflight.yml" "homebrew").2.2 (by decide)⟩
